import Mathlib

/-!
Verification of the request/normalization core of the app-store-scraper
TypeScript library, as a shallow embedding in Lean 4.

Strings are modelled as `List Char`; JavaScript numbers as an inductive
`JSNum` (finite rational, plus or minus infinity, NaN); fallible code
returns `Option` or `Except`.  Each definition below is translated from a
named function of the TypeScript source (file and function are given in
the doc comment).
-/

set_option maxRecDepth 4000

/-- JavaScript strings are modelled as lists of characters. -/
abbrev Str := List Char

/-- Coerces a Lean string literal into the `Str` model. -/
def str (s : String) : Str := s.toList

/-- JavaScript whitespace characters relevant to `parseInt` / `parseFloat`
leading-whitespace skipping. -/
def isJsWs (c : Char) : Bool :=
  c = ' ' || c = '\t' || c = '\n' || c = '\r'

/-- Boolean test that `pat` is a prefix of `s` (JS `String.prototype.startsWith`). -/
def strStarts : Str → Str → Bool
  | _, [] => true
  | [], _ :: _ => false
  | a :: as, b :: bs => a = b && strStarts as bs

/-- Boolean substring test (JS `String.prototype.includes`). -/
def containsSub : Str → Str → Bool
  | [], pat => pat.isEmpty
  | s@(_ :: rest), pat => strStarts s pat || containsSub rest pat

/-- Fuel-driven worker for `splitOnSub`; `cur` accumulates the current piece
reversed.  The fuel is an upper bound on the remaining scan length, so the
fuel-exhausted branch is unreachable when started with `s.length + 1`. -/
def splitGo : Nat → Str → Str → Str → List Str
  | _, [], _, cur => [cur.reverse]
  | 0, s, _, cur => [cur.reverse ++ s]
  | fuel + 1, s@(c :: rest), sep, cur =>
    if sep ≠ [] ∧ strStarts s sep then
      cur.reverse :: splitGo fuel (s.drop sep.length) sep []
    else
      splitGo fuel rest sep (c :: cur)

/-- JS `String.prototype.split` with a non-empty string separator: splits at
each leftmost non-overlapping occurrence, keeping empty pieces. -/
def splitOnSub (s sep : Str) : List Str :=
  splitGo (s.length + 1) s sep []

/-- Accumulates a radix-10 digit run into a natural number. -/
def digitsToNat (ds : Str) : Nat :=
  ds.foldl (fun a c => a * 10 + (c.toNat - '0'.toNat)) 0

/-- JS `parseInt(s, 10)`: skip leading whitespace, optional sign, then the
maximal leading digit run; `none` models `NaN` (no digits consumed). -/
def parseIntJS (s : Str) : Option Int :=
  let s1 := s.dropWhile isJsWs
  let signed : Bool × Str :=
    match s1 with
    | '-' :: rest => (true, rest)
    | '+' :: rest => (false, rest)
    | rest => (false, rest)
  let ds := signed.2.takeWhile Char.isDigit
  if ds = [] then none
  else some (if signed.1 then -(digitsToNat ds : Int) else (digitsToNat ds : Int))

/-- JavaScript numbers: finite value (as a rational), infinities, NaN. -/
inductive JSNum where
  | fin (q : ℚ)
  | posInf
  | negInf
  | nan
deriving DecidableEq

/-- Digit-run value as a rational (for `parseFloat` fraction handling). -/
def fracValue (ds : Str) : ℚ :=
  (digitsToNat ds : ℚ) / ((10 : ℚ) ^ ds.length)

/-- Exponent suffix of a JS float literal: `e`/`E`, optional sign, digits.
Returns the exponent (0 when absent or malformed, as JS ignores a dangling
exponent marker in `parseFloat`'s longest-valid-prefix scan). -/
def parseExp (s : Str) : Int :=
  match s with
  | 'e' :: rest | 'E' :: rest =>
    (match rest with
     | '-' :: ds => if ds.takeWhile Char.isDigit = [] then 0
                    else -(digitsToNat (ds.takeWhile Char.isDigit) : Int)
     | '+' :: ds => if ds.takeWhile Char.isDigit = [] then 0
                    else (digitsToNat (ds.takeWhile Char.isDigit) : Int)
     | ds => if ds.takeWhile Char.isDigit = [] then 0
             else (digitsToNat (ds.takeWhile Char.isDigit) : Int))
  | _ => 0

/-- Mantissa-and-exponent part of JS `parseFloat`, after sign removal:
digits, optional `.digits`, optional exponent; `none` models `NaN`. -/
def parseFloatBody (s : Str) : Option ℚ :=
  let intDs := s.takeWhile Char.isDigit
  let afterInt := s.dropWhile Char.isDigit
  let fracDs : Str :=
    match afterInt with
    | '.' :: rest => rest.takeWhile Char.isDigit
    | _ => []
  let afterFrac : Str :=
    match afterInt with
    | '.' :: rest => rest.dropWhile Char.isDigit
    | _ => afterInt
  if intDs = [] ∧ fracDs = [] then none
  else
    let mant : ℚ := (digitsToNat intDs : ℚ) + fracValue fracDs
    some (mant * (10 : ℚ) ^ parseExp afterFrac)

/-- JS `parseFloat(s)`: leading whitespace, optional sign, `Infinity` or a
decimal mantissa with optional exponent; unparseable input gives `NaN`. -/
def parseFloatJS (s : Str) : JSNum :=
  let s1 := s.dropWhile isJsWs
  let signed : Bool × Str :=
    match s1 with
    | '-' :: rest => (true, rest)
    | '+' :: rest => (false, rest)
    | rest => (false, rest)
  if strStarts signed.2 (str "Infinity") then
    if signed.1 then JSNum.negInf else JSNum.posInf
  else
    match parseFloatBody signed.2 with
    | none => JSNum.nan
    | some q => JSNum.fin (if signed.1 then -q else q)

/-- JS strict equality of a number with the literal `0` (`price === 0`):
false for NaN, true exactly for the finite value zero. -/
def jsEqZero : JSNum → Bool
  | JSNum.fin q => q = 0
  | _ => false

/- ### src/lib/list.ts -/

/-- First piece of a JS split (`x.split(sep)[0]`); a JS split result is
never empty, so the default is unreachable. -/
def splitHead (p sep : Str) : Str :=
  (splitOnSub p sep).getD 0 []

/-- From `src/lib/list.ts`, `parseDeveloperIdFromHref` (the variant returning
both the raw string segment and the numeric id): a substring split on
`"/id"`, taking the part after the first occurrence, truncated at `?` and
`/`; the number is `parseInt(segment, 10)` with NaN mapped to 0. -/
def parseDeveloperIdFromHref (href : Option Str) : Str × Int :=
  match href with
  | none => ([], 0)
  | some h =>
    if containsSub h (str "/id") = false then ([], 0)
    else
      let part : Option Str := (splitOnSub h (str "/id")).get? 1
      let segment : Str :=
        match part with
        | none => []
        | some p => splitHead (splitHead p (str "?")) (str "/")
      (segment, match (if segment = [] then none else parseIntJS segment) with
                | none => 0
                | some n => n)

/-- A `{ label }` leaf of an RSS entry (label may be absent). -/
structure LabelField where
  label : Option Str
deriving DecidableEq

/-- Attributes of `entry.id` in the list RSS feed. -/
structure IdAttrs where
  imId : Option Str
  imBundleId : Option Str
deriving DecidableEq

/-- The `entry.id` node of the list RSS feed. -/
structure EntryId where
  attributes : Option IdAttrs
deriving DecidableEq

/-- The `im:price` amount attribute, which upstream serializes either as a
number or as a string. -/
inductive AmountVal where
  | num (q : ℚ)
  | strv (s : Str)
deriving DecidableEq

/-- Attributes of `entry.im:price`. -/
structure PriceAttrs where
  amount : Option AmountVal
  currency : Option Str
deriving DecidableEq

/-- The `entry.im:price` node. -/
structure ImPrice where
  attributes : Option PriceAttrs
deriving DecidableEq

/-- One `im:image` variant (only the label/URL is used). -/
structure ImImage where
  label : Option Str
deriving DecidableEq

/-- Attributes of `entry.im:artist`. -/
structure ArtistAttrs where
  href : Option Str
deriving DecidableEq

/-- The `entry.im:artist` node. -/
structure ImArtist where
  label : Option Str
  attributes : Option ArtistAttrs
deriving DecidableEq

/-- Attributes of one `entry.link` element. -/
structure LinkAttrs where
  rel : Option Str
  href : Option Str
deriving DecidableEq

/-- One `entry.link` element. -/
structure EntryLink where
  attributes : Option LinkAttrs
deriving DecidableEq

/-- Attributes of `entry.category`. -/
structure CategoryAttrs where
  label : Option Str
  imId : Option Str
deriving DecidableEq

/-- The `entry.category` node. -/
structure EntryCategory where
  attributes : Option CategoryAttrs
deriving DecidableEq

/-- Upstream fields that serialize as a bare object when singular and as an
array when plural (`link`, `im:image`). -/
inductive OneOrMany (α : Type) where
  | one (a : α)
  | many (l : List α)
deriving DecidableEq

/-- A validated RSS list feed entry, restricted to the fields read by
`rssEntryToListApp` in `src/lib/list.ts`. -/
structure RssFeedEntry where
  id : Option EntryId
  link : Option (OneOrMany EntryLink)
  imPrice : Option ImPrice
  imImage : Option (OneOrMany ImImage)
  imArtist : Option ImArtist
  imName : Option LabelField
  summary : Option LabelField
  category : Option EntryCategory
  imReleaseDate : Option LabelField
deriving DecidableEq

/-- The light `ListApp` shape produced from a list feed entry
(`src/types/app.ts`); `price` is a JS number, so it can be NaN. -/
structure ListApp where
  id : Int
  appId : Str
  title : Str
  icon : Str
  url : Str
  price : JSNum
  currency : Str
  free : Bool
  description : Str
  developer : Str
  developerUrl : Str
  developerId : Str
  developerIdNum : Int
  genre : Str
  genreId : Str
  released : Str
deriving DecidableEq

/-- From `src/lib/list.ts`, `parseEntryLink`: the href of the link element
whose `rel` attribute is `"alternate"`, or the empty string. -/
def parseEntryLink (entry : RssFeedEntry) : Str :=
  match entry.link with
  | none => []
  | some l =>
    let links := match l with
      | OneOrMany.one x => [x]
      | OneOrMany.many xs => xs
    match links.find? (fun x => (x.attributes.bind LinkAttrs.rel) = some (str "alternate")) with
    | none => []
    | some alt => (alt.attributes.bind LinkAttrs.href).getD []

/-- The JS expression `typeof amount === 'number' ? amount
: parseFloat(String(amount ?? 0))` from `rssEntryToListApp`. -/
def priceOfAmount (amount : Option AmountVal) : JSNum :=
  match amount with
  | some (AmountVal.num q) => JSNum.fin q
  | some (AmountVal.strv s) => parseFloatJS s
  | none => parseFloatJS (str "0")

/-- From `src/lib/list.ts`, `rssEntryToListApp`: maps a validated RSS list
feed entry to the light `ListApp` shape; `none` models the `null` returned
for a missing/empty/non-numeric `im:id`. -/
def rssEntryToListApp (entry : RssFeedEntry) : Option ListApp :=
  let idStr : Option Str := entry.id.bind (fun i => i.attributes.bind IdAttrs.imId)
  match idStr with
  | none => none
  | some [] => none
  | some s =>
    match parseIntJS s with
    | none => none
    | some idNum =>
      let imPriceAttrs := entry.imPrice.bind ImPrice.attributes
      let amount := imPriceAttrs.bind PriceAttrs.amount
      let price := priceOfAmount amount
      let currency := (imPriceAttrs.bind PriceAttrs.currency).getD (str "USD")
      let lastImage : Option ImImage :=
        match entry.imImage with
        | some (OneOrMany.many imgs) =>
          if imgs.length > 0 then imgs.get? (imgs.length - 1) else none
        | _ => none
      let icon := (lastImage.bind ImImage.label).getD []
      let artistHref := entry.imArtist.bind (fun a => a.attributes.bind ArtistAttrs.href)
      let dev := parseDeveloperIdFromHref artistHref
      some
        { id := idNum
          appId := (entry.id.bind (fun i => i.attributes.bind IdAttrs.imBundleId)).getD []
          title := (entry.imName.bind LabelField.label).getD []
          icon := icon
          url := parseEntryLink entry
          price := price
          currency := currency
          free := jsEqZero price
          description := (entry.summary.bind LabelField.label).getD []
          developer := (entry.imArtist.bind ImArtist.label).getD []
          developerUrl := artistHref.getD []
          developerId := dev.1
          developerIdNum := dev.2
          genre := (entry.category.bind (fun c => c.attributes.bind CategoryAttrs.label)).getD []
          genreId := (entry.category.bind (fun c => c.attributes.bind CategoryAttrs.imId)).getD []
          released := (entry.imReleaseDate.bind LabelField.label).getD [] }

/-- The fixture entry of the repository's own list test whose `im:price`
amount is the textual marker `"free"`. -/
def freePriceEntry : RssFeedEntry :=
  { id := some ⟨some ⟨some (str "42"), some (str "com.free.app")⟩⟩
    link := some (OneOrMany.many
      [⟨some ⟨some (str "alternate"), some (str "https://apps.apple.com/us/app/x/id42")⟩⟩])
    imPrice := some ⟨some ⟨some (AmountVal.strv (str "free")), some (str "USD")⟩⟩
    imImage := some (OneOrMany.many [⟨some (str "https://example.com/icon.png")⟩])
    imArtist := some ⟨some (str "Dev"), some ⟨some (str "https://apps.apple.com/us/developer/x/id1")⟩⟩
    imName := some ⟨some (str "Free App")⟩
    summary := some ⟨some (str "Desc")⟩
    category := some ⟨some ⟨some (str "Games"), some (str "6014")⟩⟩
    imReleaseDate := some ⟨some (str "2024-01-01T00:00:00Z")⟩ }

/- ### src/lib/reviews.ts -/

/-- The `entry.author` node of the reviews feed. -/
structure ReviewAuthor where
  name : Option LabelField
  uri : Option LabelField
deriving DecidableEq

/-- A validated reviews feed entry, restricted to the fields read by
`reviews` in `src/lib/reviews.ts`. -/
structure ReviewEntry where
  id : Option LabelField
  author : Option ReviewAuthor
  imVersion : Option LabelField
  imRating : Option LabelField
  title : Option LabelField
  content : Option LabelField
  updated : Option LabelField
deriving DecidableEq

/-- One normalized user review (`src/types/review.ts`). -/
structure Review where
  id : Str
  userName : Str
  userUrl : Str
  version : Str
  score : Int
  title : Str
  text : Str
  updated : Str
deriving DecidableEq

/-- The score computation of `reviews` in `src/lib/reviews.ts`: a missing or
empty `im:rating` label gives NaN, otherwise `parseInt(label, 10)`; NaN maps
to 0 and numeric values are clamped with `Math.max(0, Math.min(5, raw))`. -/
def reviewScore (label : Option Str) : Int :=
  let rawScore : Option Int :=
    match label with
    | none => none
    | some [] => none
    | some l => parseIntJS l
  match rawScore with
  | none => 0
  | some n => max 0 (min 5 n)

/-- The per-entry normalizer inside `reviews` in `src/lib/reviews.ts`. -/
def entryToReview (e : ReviewEntry) : Review :=
  { id := (e.id.bind LabelField.label).getD []
    userName := (e.author.bind (fun a => a.name.bind LabelField.label)).getD []
    userUrl := (e.author.bind (fun a => a.uri.bind LabelField.label)).getD []
    version := (e.imVersion.bind LabelField.label).getD []
    score := reviewScore (e.imRating.bind LabelField.label)
    title := (e.title.bind LabelField.label).getD []
    text := (e.content.bind LabelField.label).getD []
    updated := (e.updated.bind LabelField.label).getD [] }

/-- The entry-list processing of `reviews` in `src/lib/reviews.ts`: the first
entry is dropped unconditionally (`entries.slice(1)`, documented as skipping
an app-metadata pseudo-entry), then each remaining entry is normalized. -/
def reviewsFromEntries (entries : List ReviewEntry) : List Review :=
  (entries.drop 1).map entryToReview

/- ### src/lib/ratings.ts -/

/-- The rating histogram of `src/types/app.ts`: one count per star 1..5.
The TypeScript type is a record with exactly the five keys 1..5, so key
presence is structural here as well. -/
structure RatingHistogram where
  s1 : Int
  s2 : Int
  s3 : Int
  s4 : Int
  s5 : Int
deriving DecidableEq

/-- Bucket lookup by star number (1..5); other arguments return 0. -/
def histGet (h : RatingHistogram) : Nat → Int
  | 1 => h.s1
  | 2 => h.s2
  | 3 => h.s3
  | 4 => h.s4
  | 5 => h.s5
  | _ => 0

/-- Bucket update by star number (1..5); after the `slice(0, 5)` in the
source the star index is always in range, so other stars leave the record
unchanged. -/
def histSet (h : RatingHistogram) (star : Nat) (v : Int) : RatingHistogram :=
  match star with
  | 1 => { h with s1 := v }
  | 2 => { h with s2 := v }
  | 3 => { h with s3 := v }
  | 4 => { h with s4 := v }
  | 5 => { h with s5 := v }
  | _ => h

/-- The `Ratings` result of `src/types/app.ts`: total count plus histogram. -/
structure Ratings where
  ratings : Int
  histogram : RatingHistogram
deriving DecidableEq

/-- First maximal digit run of a string (the JS regex match `/\d+/` used on
the `.rating-count` text), or `none` when the string has no digit. -/
def firstDigitRun : Str → Option Str
  | [] => none
  | c :: rest =>
    if c.isDigit then some ((c :: rest).takeWhile Char.isDigit)
    else firstDigitRun rest

/-- The total-count extraction of `parseRatings`: `parseInt` of the first
digit run of the `.rating-count` text, 0 when there is no match. -/
def totalRatingsOf (rcText : Str) : Int :=
  match firstDigitRun rcText with
  | none => 0
  | some run =>
    match parseIntJS run with
    | none => 0
    | some n => n

/-- The per-element mapper of `parseRatings` over `.vote .total` elements:
`parseInt(text, 10)` with NaN replaced by 0. -/
def voteVal (t : Str) : Int :=
  match parseIntJS t with
  | none => 0
  | some n => n

/-- The histogram-building `reduce` of `parseRatings`: star = 5 - index for
each value of the (already sliced) list, starting from the all-zero record. -/
def buildHistAux : List Int → Nat → RatingHistogram → RatingHistogram
  | [], _, acc => acc
  | v :: rest, i, acc => buildHistAux rest (i + 1) (histSet acc (5 - i) v)

/-- From `src/lib/ratings.ts`, `parseRatings`, as a function of the text
contents the two cheerio selections extract from the HTML: `rcText` is the
text of `.rating-count`, `voteTexts` the texts of the `.vote .total`
elements in document order.  The console warning on a sum mismatch is a
side effect with no influence on the returned value and is not modelled. -/
def parseRatings (rcText : Str) (voteTexts : List Str) : Ratings :=
  let rawByStar := voteTexts.map voteVal
  let ratingsByStar := rawByStar.take 5
  { ratings := totalRatingsOf rcText
    histogram := buildHistAux ratingsByStar 0 ⟨0, 0, 0, 0, 0⟩ }

/-- A structured HTTP error (`src/lib/errors.ts`, class `HttpError`):
message, status code, optional request URL. -/
structure HttpError where
  message : Str
  status : Nat
  url : Option Str
deriving DecidableEq

/-- From `src/lib/ratings.ts`, `ratings`, after the transport call
succeeded: an empty body raises `HttpError('No ratings data returned', 204,
url)`, otherwise the body is parsed.  `extract` stands for the cheerio
text extraction that feeds `parseRatings`. -/
def ratingsOnBody (url : Str) (extract : Str → Str × List Str)
    (body : Str) : Except HttpError Ratings :=
  if body.length = 0 then
    Except.error ⟨str "No ratings data returned", 204, some url⟩
  else
    Except.ok (parseRatings (extract body).1 (extract body).2)

/- ### src/lib/search.ts -/

/-- A lookup/search result record, restricted to the fields the pagination
and software filter of `search` in `src/lib/search.ts` read. -/
structure SearchResult where
  kind : Option Str
  wrapperType : Option Str
  trackId : Option Int
deriving DecidableEq

/-- The software filter shared by `search` and `lookup`: keep records with
`kind === 'software'` or `wrapperType === 'software'`. -/
def isSoftware (r : SearchResult) : Bool :=
  r.kind = some (str "software") || r.wrapperType = some (str "software")

/-- The limit parameter `search` places in the request URL:
`Math.min(page * num, 200)` (`ITUNES_SEARCH_MAX_LIMIT = 200`). -/
def searchLimit (page num : Nat) : Nat :=
  min (page * num) 200

/-- The client-side pagination of `search`: filter to software records, then
`slice(start, start + num)` with `start = (page - 1) * num`. -/
def searchPaginate (page num : Nat) (results : List SearchResult) : List SearchResult :=
  let allResults := results.filter isSoftware
  ((allResults.drop ((page - 1) * num)).take num)

/- ### src/lib/common.ts, doRequest -/

/-- JS `Number.isFinite`. -/
def jsIsFinite : JSNum → Bool
  | JSNum.fin _ => true
  | _ => false

/-- JS `x <= 0` (false for NaN). -/
def jsLeZero : JSNum → Bool
  | JSNum.fin q => q ≤ 0
  | JSNum.negInf => true
  | JSNum.posInf => false
  | JSNum.nan => false

/-- JS `Math.floor` (identity on infinities and NaN). -/
def jsFloor : JSNum → JSNum
  | JSNum.fin q => JSNum.fin (⌊q⌋ : ℚ)
  | x => x

/-- JS `x || 0`: replaces the falsy numbers (NaN and 0) by 0. -/
def jsOrElseZero (x : JSNum) : JSNum :=
  if x = JSNum.nan ∨ x = JSNum.fin 0 then JSNum.fin 0 else x

/-- JS `Math.max(0, x)` (NaN-propagating). -/
def jsMaxZero : JSNum → JSNum
  | JSNum.fin q => JSNum.fin (max 0 q)
  | JSNum.posInf => JSNum.posInf
  | JSNum.negInf => JSNum.fin 0
  | JSNum.nan => JSNum.nan

/-- The retry-count sanitization of `doRequest`:
`Math.max(0, Math.floor(Number(rawRetries)) || 0)` (`Number` is the
identity on numbers). -/
def maxRetriesOf (raw : JSNum) : JSNum :=
  jsMaxZero (jsOrElseZero (jsFloor raw))

/-- The loop guard `attempt <= maxRetries` (false for NaN). -/
def attemptLe (attempt : Nat) : JSNum → Bool
  | JSNum.fin q => (attempt : ℚ) ≤ q
  | JSNum.posInf => true
  | JSNum.negInf => false
  | JSNum.nan => false

/-- The retry guard `attempt < maxRetries` (false for NaN). -/
def attemptLt (attempt : Nat) : JSNum → Bool
  | JSNum.fin q => (attempt : ℚ) < q
  | JSNum.posInf => true
  | JSNum.negInf => false
  | JSNum.nan => false

/-- An HTTP response as `fetch` resolves it: status code and text body. -/
structure Resp where
  status : Nat
  body : Str
deriving DecidableEq

/-- The outcome of one `fetch` attempt: a resolved response, or a rejection
carrying whether the error is a `TypeError` (network/DNS failure) and its
`name` (`'AbortError'` for a timeout abort in the code's check). -/
inductive FetchResult where
  | resp (r : Resp)
  | thrown (isTypeError : Bool) (name : Str)
deriving DecidableEq

/-- `response.ok`: status in the inclusive range 200..299. -/
def respOk (r : Resp) : Bool :=
  200 ≤ r.status && r.status ≤ 299

/-- From `src/lib/common.ts`, `isRetryable`: HTTP 429, HTTP 503, or a
`TypeError` (network / DNS / CORS); everything else is terminal. -/
def isRetryable (status : Option Nat) (isTypeError : Bool) : Bool :=
  status = some 429 || status = some 503 || isTypeError

/-- The failures `doRequest` can raise.  `httpError` is a thrown `HttpError`
(its message interpolates the URL and status; the fields carry both);
`jsError` wraps a `fetch` rejection; `invalidTimeout` is the precondition
error whose message interpolates the offending `timeoutMs` value it
carries; `genericFail` is the final `Error('Request failed')`. -/
inductive ReqError where
  | httpError (status : Nat) (url : Str)
  | jsError (isTypeError : Bool) (name : Str)
  | invalidTimeout (t : JSNum)
  | genericFail
deriving DecidableEq

/-- The `'status' in err` extraction in the catch block. -/
def errStatus : ReqError → Option Nat
  | ReqError.httpError s _ => some s
  | _ => none

/-- The `err.name` used by the catch block (`HttpError` sets its name to
`'HttpError'`; plain `Error` instances have name `'Error'`). -/
def errName : ReqError → Str
  | ReqError.httpError _ _ => str "HttpError"
  | ReqError.jsError _ n => n
  | _ => str "Error"

/-- The `err instanceof TypeError` test in `isRetryable`. -/
def errIsTypeError : ReqError → Bool
  | ReqError.jsError b _ => b
  | _ => false

/-- Outcome of a `doRequest` call: a returned body or a raised error. -/
inductive ReqResult where
  | ok (body : Str)
  | err (e : ReqError)
deriving DecidableEq

/-- Result of running the `doRequest` attempt loop: `done` is a JS return or
throw together with the number of fetch attempts made; `fuelOut` reports
that the modelling fuel was exhausted after the given number of attempts
with the loop still running (used to witness unbounded retrying). -/
inductive RunOut where
  | done (attempts : Nat) (res : ReqResult)
  | fuelOut (attempts : Nat)
deriving DecidableEq

/-- Adds fetch attempts performed before a recursive call. -/
def addAttempts (k : Nat) : RunOut → RunOut
  | RunOut.done a r => RunOut.done (a + k) r
  | RunOut.fuelOut a => RunOut.fuelOut (a + k)

/-- Number of fetch attempts a run outcome records. -/
def attemptsOf : RunOut → Nat
  | RunOut.done a _ => a
  | RunOut.fuelOut a => a

/-- The retry condition of the catch block:
`attempt < maxRetries && (isRetryable(status, err) || lastError?.name ===
'AbortError')`. -/
def catchRetries (attempt : Nat) (mr : JSNum) (e : ReqError) : Bool :=
  attemptLt attempt mr &&
    (isRetryable (errStatus e) (errIsTypeError e) || errName e = str "AbortError")

/-- The attempt loop of `doRequest` (`for (let attempt = 0; attempt <=
maxRetries; attempt++)`), one fuel unit per iteration.  `fetches n` is the
outcome of the n-th fetch; backoff delays are time-only and not modelled.
A non-ok response either retries (when the budget and `isRetryable(status)`
allow) after draining the body, or throws an `HttpError` that the catch
block re-examines; a fetch rejection is wrapped and re-examined the same
way; when the guard fails the loop exits and throws the last error or
`Error('Request failed')`. -/
def doRequestGo (fetches : Nat → FetchResult) (url : Str) (mr : JSNum) :
    Nat → Nat → Option ReqError → RunOut
  | 0, attempt, lastError =>
    if attemptLe attempt mr = false then
      RunOut.done 0 (ReqResult.err (lastError.getD ReqError.genericFail))
    else RunOut.fuelOut 0
  | fuel + 1, attempt, lastError =>
    if attemptLe attempt mr = false then
      RunOut.done 0 (ReqResult.err (lastError.getD ReqError.genericFail))
    else
      match fetches attempt with
      | FetchResult.resp r =>
        if respOk r then RunOut.done 1 (ReqResult.ok r.body)
        else if attemptLt attempt mr && isRetryable (some r.status) false then
          addAttempts 1 (doRequestGo fetches url mr fuel (attempt + 1) lastError)
        else
          let e := ReqError.httpError r.status url
          if catchRetries attempt mr e then
            addAttempts 1 (doRequestGo fetches url mr fuel (attempt + 1) (some e))
          else RunOut.done 1 (ReqResult.err e)
      | FetchResult.thrown isTE name =>
        let e := ReqError.jsError isTE name
        if catchRetries attempt mr e then
          addAttempts 1 (doRequestGo fetches url mr fuel (attempt + 1) (some e))
        else RunOut.done 1 (ReqResult.err e)

/-- From `src/lib/common.ts`, `doRequest`: defaults (`DEFAULT_TIMEOUT_MS =
15000`, `DEFAULT_RETRIES = 0`), the timeout precondition check performed
before any fetch, retry-count sanitization, then the attempt loop.  `fuel`
bounds the number of loop iterations the model executes; for a finite
sanitized budget k, `k + 1` fuel always suffices. -/
def doRequestModel (timeoutMs retries : Option JSNum)
    (fetches : Nat → FetchResult) (url : Str) (fuel : Nat) : RunOut :=
  let t := timeoutMs.getD (JSNum.fin 15000)
  if jsIsFinite t = false ∨ jsLeZero t = true then
    RunOut.done 0 (ReqResult.err (ReqError.invalidTimeout t))
  else
    doRequestGo fetches url (maxRetriesOf (retries.getD (JSNum.fin 0))) fuel 0 none

/-- A fetch sequence that always yields HTTP 429. -/
def persistent429 : Nat → FetchResult :=
  fun _ => FetchResult.resp ⟨429, []⟩

/-- A fetch sequence yielding 429, 429, then 503 (used for the retries = 2
scenario: the raised outcome must reflect the third, last attempt). -/
def seq429x2then503 : Nat → FetchResult :=
  fun i => if i ≤ 1 then FetchResult.resp ⟨429, []⟩ else FetchResult.resp ⟨503, []⟩

/-- Fetch sequence for the positive retry cases: one retryable failure
(supplied as the first outcome), then HTTP 200 with body `"ok"`. -/
def failThenOk (first : FetchResult) : Nat → FetchResult :=
  fun i => if i = 0 then first else FetchResult.resp ⟨200, str "ok"⟩

/- ### Supporting lemmas -/

/-- After sanitization the retry budget is never below 0, so the loop guard
admits attempt 0: at least one fetch is always attempted. -/
theorem attemptLe_zero_maxRetries (raw : JSNum) :
    attemptLe 0 (maxRetriesOf raw) = true := by
  cases raw with
  | fin q =>
    simp only [maxRetriesOf, jsFloor, jsOrElseZero]
    split_ifs with h h2
    all_goals simp [jsMaxZero, attemptLe, le_max_iff]
  | posInf => decide
  | negInf => decide
  | nan => decide

/-- Attempt counting through `addAttempts`: recording one more fetch makes
the total at least one. -/
theorem one_le_attemptsOf_add (out : RunOut) : 1 ≤ attemptsOf (addAttempts 1 out) := by
  cases out <;> simp [addAttempts, attemptsOf]

/- ### Claim theorems -/

/-- C1: the claim says developer-id extraction anchors on `id` immediately
followed by digits, so the href ending in `identity-games/id284882218`
yields 284882218.  The code splits on the bare substring `"/id"`, which
first matches inside `"/identity-games"`: the extracted segment is
`"entity-games"` and the numeric id is 0, not 284882218.  (The third
conjunct shows the same code does extract 999 from a slug without an
embedded `"id"`, isolating the false-match defect.) -/
theorem parseDeveloperIdFromHref_identity_slug_false_match :
    parseDeveloperIdFromHref
        (some (str "https://apps.apple.com/us/developer/identity-games/id284882218"))
      = (str "entity-games", 0)
    ∧ (parseDeveloperIdFromHref
        (some (str "https://apps.apple.com/us/developer/identity-games/id284882218"))).2
      ≠ (284882218 : Int)
    ∧ parseDeveloperIdFromHref
        (some (str "https://apps.apple.com/us/developer/foo/id999?mt=8"))
      = (str "999", 999) := by
  refine ⟨by decide, by decide, by decide⟩

/-- C2: the claim says a non-numeric `im:price` amount (the repository's own
test fixture uses `"free"`) normalizes to price 0 and `free = true`.  The
code computes `parseFloat('free')`, which is NaN, and `free` is
`NaN === 0`, which is false — so the normalized entry has a NaN price and
`free = false`. -/
theorem rssEntryToListApp_free_amount_nan_price :
    (rssEntryToListApp freePriceEntry).map ListApp.price = some JSNum.nan
    ∧ (rssEntryToListApp freePriceEntry).map ListApp.free = some false
    ∧ parseFloatJS (str "free") = JSNum.nan := by
  refine ⟨by decide, by decide, by decide⟩

/-- C6: every normalized review score lies in [0, 5]; a missing or empty
`im:rating` label gives exactly 0, an unparseable label gives exactly 0,
and a parsed numeric rating is clamped with `max 0 (min 5 n)` (so 10
becomes 5 and negative values become 0). -/
theorem reviewScore_clamped_range :
    (∀ e : ReviewEntry, 0 ≤ (entryToReview e).score ∧ (entryToReview e).score ≤ 5)
    ∧ reviewScore none = 0
    ∧ reviewScore (some []) = 0
    ∧ (∀ s : Str, parseIntJS s = none → reviewScore (some s) = 0)
    ∧ (∀ (s : Str) (n : Int), parseIntJS s = some n →
        reviewScore (some s) = max 0 (min 5 n)) := by
  have hrange : ∀ l : Option Str, 0 ≤ reviewScore l ∧ reviewScore l ≤ 5 := by
    intro l
    unfold reviewScore
    rcases l with _ | (_ | ⟨c, rest⟩)
    · simp
    · simp
    · cases h : parseIntJS (c :: rest) with
      | none => simp [h]
      | some n =>
        simp only [h]
        constructor
        · exact le_max_left _ _
        · exact max_le (by norm_num) (min_le_left _ _)
  refine ⟨fun e => hrange _, rfl, rfl, ?_, ?_⟩
  · intro s hs
    rcases s with _ | ⟨c, rest⟩
    · rfl
    · simp [reviewScore, hs]
  · intro s n hs
    rcases s with _ | ⟨c, rest⟩
    · simp [parseIntJS] at hs
    · simp [reviewScore, hs]

/-- C6 witness: concrete instances of the quantified parts — the label
`"notanumber"` scores 0 and the out-of-range label `"10"` scores 5. -/
theorem reviewScore_clamped_range_witness :
    reviewScore (some (str "notanumber")) = 0
    ∧ reviewScore (some (str "10")) = max 0 (min 5 10) := by
  constructor
  · exact reviewScore_clamped_range.2.2.2.1 (str "notanumber") (by decide)
  · exact reviewScore_clamped_range.2.2.2.2 (str "10") 10 (by decide)

/-- C10: `reviews` drops the first entry of the validated feed
unconditionally (`entries.slice(1)`), so the number of returned reviews is
the truncated `entries.length - 1` and a single-entry feed yields the
empty list. -/
theorem reviews_drops_first_entry :
    (∀ entries : List ReviewEntry,
       (reviewsFromEntries entries).length = entries.length - 1)
    ∧ (∀ e : ReviewEntry, reviewsFromEntries [e] = []) := by
  constructor
  · intro entries
    simp [reviewsFromEntries]
  · intro e
    rfl

/-- C8: a successful ratings response with an empty body raises an
`HttpError` whose status is 204 — distinguishable by status from a real
HTTP 404 — carrying the message `No ratings data returned`. -/
theorem ratings_empty_body_http204 :
    ∀ (url : Str) (extract : Str → Str × List Str),
      ∃ e : HttpError,
        ratingsOnBody url extract [] = Except.error e
        ∧ e.status = 204
        ∧ e.status ≠ 404
        ∧ e.message = str "No ratings data returned" := by
  intro url extract
  exact ⟨⟨str "No ratings data returned", 204, some url⟩, rfl, rfl,
    by show (204 : Nat) ≠ 404; decide, rfl⟩

/-- C7 counterexample: the claim asserts non-negative counts for every HTML
input, but a `.vote .total` element whose text is `"-7"` (HTML such as
`<div class="vote"><span class="total">-7</span></div>`) is parsed by
`parseInt` to -7 and stored unclamped: the 5-star bucket is negative. -/
theorem parseRatings_negative_count_example :
    (parseRatings (str "") [str "-7"]).histogram.s5 = -7
    ∧ (parseRatings (str "") [str "-7"]).histogram.s5 < 0 := by
  refine ⟨by decide, by decide⟩

/-- C7 (amended): the histogram always has exactly the five star keys 1..5
(structural in `RatingHistogram`); bucket `s` holds the parsed value of the
`(5 - s)`-th star-count element when one exists — so only the first five
elements are ever used and a sixth or later element is ignored — and 0
when fewer elements were found (missing trailing buckets default to 0);
every bucket is non-negative whenever no element text parses to a negative
number. -/
theorem parseRatings_histogram_shape :
    ∀ (rc : Str) (texts : List Str) (s : Nat), 1 ≤ s → s ≤ 5 →
      histGet (parseRatings rc texts).histogram s
        = (((texts.get? (5 - s)).map voteVal).getD 0)
      ∧ ((∀ t ∈ texts, 0 ≤ voteVal t) →
          0 ≤ histGet (parseRatings rc texts).histogram s) := by
  intro rc texts s h1 h5
  have hmain : histGet (parseRatings rc texts).histogram s
      = (((texts.get? (5 - s)).map voteVal).getD 0) := by
    interval_cases s <;>
      rcases texts with _ | ⟨a, _ | ⟨b, _ | ⟨c, _ | ⟨d, _ | ⟨e, rest⟩⟩⟩⟩⟩ <;>
        rfl
  refine ⟨hmain, ?_⟩
  intro hnn
  rw [hmain]
  cases hg : texts.get? (5 - s) with
  | none => decide
  | some t =>
    show 0 ≤ voteVal t
    exact hnn t (List.get?_mem hg)

/-- C7 witness: for three star-count elements `50, 20, 10` the 5-star bucket
is 50 and the missing trailing 1-star bucket is 0. -/
theorem parseRatings_histogram_shape_witness :
    histGet (parseRatings (str "80") [str "50", str "20", str "10"]).histogram 5 = 50
    ∧ histGet (parseRatings (str "80") [str "50", str "20", str "10"]).histogram 1 = 0 := by
  constructor
  · exact (parseRatings_histogram_shape (str "80") [str "50", str "20", str "10"] 5
      (by decide) (by decide)).1
  · exact (parseRatings_histogram_shape (str "80") [str "50", str "20", str "10"] 1
      (by decide) (by decide)).1

/-- C9: when the requested offset `(page - 1) * num` is at or beyond the
200-result upstream cap and the response carries at most 200 results,
`search` returns an empty list (not an error) and the limit parameter it
placed in the URL is exactly 200 = min(page * num, 200). -/
theorem search_offset_beyond_cap_empty :
    ∀ (page num : Nat) (results : List SearchResult),
      1 ≤ page → 1 ≤ num → 200 ≤ (page - 1) * num → results.length ≤ 200 →
      searchPaginate page num results = [] ∧ searchLimit page num = 200 := by
  intro page num results hp hn hcap hlen
  constructor
  · unfold searchPaginate
    have h1 : (results.filter isSoftware).length ≤ 200 :=
      le_trans (List.length_filter_le _ _) hlen
    have h2 : (results.filter isSoftware).length ≤ (page - 1) * num :=
      le_trans h1 hcap
    simp [List.drop_eq_nil_of_le h2]
  · unfold searchLimit
    have hps : page - 1 + 1 = page := Nat.succ_pred_eq_of_pos hp
    have h200 : 200 ≤ page * num := by
      calc 200 ≤ (page - 1) * num := hcap
        _ ≤ (page - 1) * num + num := Nat.le_add_right _ _
        _ = (page - 1 + 1) * num := (Nat.succ_mul _ _).symm
        _ = page * num := by rw [hps]
    exact Nat.min_eq_right h200

/-- C9 witness: page 5 with page size 50 (offset 200) on an empty result
list yields the empty page and a URL limit of 200. -/
theorem search_offset_beyond_cap_empty_witness :
    searchPaginate 5 50 [] = [] ∧ searchLimit 5 50 = 200 :=
  search_offset_beyond_cap_empty 5 50 [] (by decide) (by decide) (by decide) (by decide)

/-- C5: for every timeoutMs that is non-finite (NaN or an infinity) or at
most 0, `doRequest` raises the precondition error carrying the offending
value before any fetch: the run records zero attempts, for every retry
setting, fetch behavior, and fuel. -/
theorem doRequest_invalid_timeout_fails_fast :
    ∀ (t : JSNum) (retries : Option JSNum) (fetches : Nat → FetchResult)
      (url : Str) (fuel : Nat),
      jsIsFinite t = false ∨ jsLeZero t = true →
      doRequestModel (some t) retries fetches url fuel
        = RunOut.done 0 (ReqResult.err (ReqError.invalidTimeout t)) := by
  intro t retries fetches url fuel h
  show (if jsIsFinite t = false ∨ jsLeZero t = true
      then RunOut.done 0 (ReqResult.err (ReqError.invalidTimeout t))
      else doRequestGo fetches url (maxRetriesOf (retries.getD (JSNum.fin 0))) fuel 0 none)
    = RunOut.done 0 (ReqResult.err (ReqError.invalidTimeout t))
  rw [if_pos h]

/-- C5 witness: timeoutMs 0 raises the precondition error with zero fetch
attempts. -/
theorem doRequest_invalid_timeout_fails_fast_witness :
    doRequestModel (some (JSNum.fin 0)) none persistent429 (str "u") 3
      = RunOut.done 0 (ReqResult.err (ReqError.invalidTimeout (JSNum.fin 0))) :=
  doRequest_invalid_timeout_fails_fast (JSNum.fin 0) none persistent429 (str "u") 3
    (Or.inr (by decide))

/-- C3: `doRequest` retries only the designated retryable set.  (1) Every
non-ok HTTP status other than 429 and 503 is terminal after exactly one
attempt, for every retry budget; (2) a fetch rejection that is not a
`TypeError` and not named `AbortError` is likewise terminal after one
attempt; (3) with retries = 2 and responses 429, 429, 503, exactly 3
attempts occur and the raised `HttpError` carries the last attempt's
status 503; (4) with retries = 2 and persistent 429, exactly 3 attempts
occur and the error carries 429; (5) and (6): a `TypeError` (network
error) and an `AbortError` (timeout) are retried and a following success
is returned. -/
theorem doRequest_retry_policy :
    (∀ (fetches : Nat → FetchResult) (url : Str) (raw : JSNum) (s : Nat) (b : Str),
       fetches 0 = FetchResult.resp ⟨s, b⟩ → respOk ⟨s, b⟩ = false → s ≠ 429 → s ≠ 503 →
       doRequestModel none (some raw) fetches url 1
         = RunOut.done 1 (ReqResult.err (ReqError.httpError s url)))
    ∧ (∀ (fetches : Nat → FetchResult) (url : Str) (raw : JSNum) (name : Str),
       fetches 0 = FetchResult.thrown false name → name ≠ str "AbortError" →
       doRequestModel none (some raw) fetches url 1
         = RunOut.done 1 (ReqResult.err (ReqError.jsError false name)))
    ∧ doRequestModel none (some (JSNum.fin 2)) seq429x2then503 (str "u") 3
        = RunOut.done 3 (ReqResult.err (ReqError.httpError 503 (str "u")))
    ∧ doRequestModel none (some (JSNum.fin 2)) persistent429 (str "u") 3
        = RunOut.done 3 (ReqResult.err (ReqError.httpError 429 (str "u")))
    ∧ doRequestModel none (some (JSNum.fin 2))
        (failThenOk (FetchResult.thrown true (str "TypeError"))) (str "u") 3
        = RunOut.done 2 (ReqResult.ok (str "ok"))
    ∧ doRequestModel none (some (JSNum.fin 2))
        (failThenOk (FetchResult.thrown false (str "AbortError"))) (str "u") 3
        = RunOut.done 2 (ReqResult.ok (str "ok")) := by
  refine ⟨?_, ?_, by decide, by decide, by decide, by decide⟩
  · intro fetches url raw s b hfetch hok h429 h503
    have hle := attemptLe_zero_maxRetries raw
    have hretry : isRetryable (some s) false = false := by
      simp [isRetryable, h429, h503]
    show doRequestGo fetches url (maxRetriesOf raw) 1 0 none
        = RunOut.done 1 (ReqResult.err (ReqError.httpError s url))
    simp +decide [doRequestGo, hfetch, hok, hretry, catchRetries, errStatus, errName,
      errIsTypeError, hle]
  · intro fetches url raw name hfetch hname
    have hle := attemptLe_zero_maxRetries raw
    show doRequestGo fetches url (maxRetriesOf raw) 1 0 none
        = RunOut.done 1 (ReqResult.err (ReqError.jsError false name))
    simp +decide [doRequestGo, hfetch, catchRetries, errStatus, errName,
      errIsTypeError, isRetryable, hname, hle]

/-- C3 witness: a 404 response with a retry budget of 5 raises
`HttpError 404` after exactly one attempt. -/
theorem doRequest_retry_policy_witness :
    doRequestModel none (some (JSNum.fin 5)) (fun _ => FetchResult.resp ⟨404, []⟩) (str "u") 1
      = RunOut.done 1 (ReqResult.err (ReqError.httpError 404 (str "u"))) :=
  doRequest_retry_policy.1 (fun _ => FetchResult.resp ⟨404, []⟩) (str "u") (JSNum.fin 5)
    404 [] rfl (by decide) (by decide) (by decide)

/-- C4 counterexample: the claim says every non-finite retries value is
clamped to 0 with exactly one attempt, but `Math.max(0, Math.floor(Infinity)
|| 0)` is `Infinity`: the sanitized budget for retries = +Infinity is not 0,
and against persistent 429 responses the loop is still retrying after 5
fetch attempts (5 units of fuel) instead of stopping at one. -/
theorem doRequest_posInf_retries_not_clamped :
    maxRetriesOf JSNum.posInf = JSNum.posInf
    ∧ maxRetriesOf JSNum.posInf ≠ JSNum.fin 0
    ∧ doRequestModel none (some JSNum.posInf) persistent429 (str "u") 5
        = RunOut.fuelOut 5 := by
  refine ⟨by decide, by decide, by decide⟩

/-- C4 (amended): negative, NaN, and -Infinity retries values are clamped to
a budget of 0, and a budget of 0 makes exactly one attempt (for every fetch
behavior); for every retries value — +Infinity included — at least one
attempt is always made.  (+Infinity is not clamped: see the
counterexample.) -/
theorem doRequest_retries_clamped_amended :
    (∀ q : ℚ, q < 0 → maxRetriesOf (JSNum.fin q) = JSNum.fin 0)
    ∧ maxRetriesOf JSNum.nan = JSNum.fin 0
    ∧ maxRetriesOf JSNum.negInf = JSNum.fin 0
    ∧ (∀ (raw : JSNum) (fetches : Nat → FetchResult) (url : Str),
        maxRetriesOf raw = JSNum.fin 0 →
        ∃ r, doRequestModel none (some raw) fetches url 1 = RunOut.done 1 r)
    ∧ (∀ (raw : JSNum) (fetches : Nat → FetchResult) (url : Str) (fuel : Nat),
        1 ≤ attemptsOf (doRequestModel none (some raw) fetches url (fuel + 1))) := by
  refine ⟨?_, by decide, by decide, ?_, ?_⟩
  · intro q hq
    have hfl : ⌊q⌋ < 0 := by
      rw [Int.floor_lt]
      exact_mod_cast hq
    have hne : ¬(JSNum.fin (⌊q⌋ : ℚ) = JSNum.nan ∨ JSNum.fin (⌊q⌋ : ℚ) = JSNum.fin 0) := by
      rintro (h | h)
      · exact JSNum.noConfusion h
      · have h1 : ((⌊q⌋ : ℚ)) = 0 := by injection h
        have h2 : ⌊q⌋ = 0 := by exact_mod_cast h1
        omega
    show jsMaxZero (jsOrElseZero (JSNum.fin (⌊q⌋ : ℚ))) = JSNum.fin 0
    rw [jsOrElseZero, if_neg hne]
    show JSNum.fin (max 0 (⌊q⌋ : ℚ)) = JSNum.fin 0
    have hm : max 0 ((⌊q⌋ : ℚ)) = 0 := max_eq_left (by exact_mod_cast le_of_lt hfl)
    rw [hm]
  · intro raw fetches url h
    show ∃ r, doRequestGo fetches url (maxRetriesOf raw) 1 0 none = RunOut.done 1 r
    rw [h]
    cases hf : fetches 0 with
    | resp r =>
      by_cases ho : respOk r = true
      · exact ⟨ReqResult.ok r.body, by simp [doRequestGo, hf, ho, attemptLe]⟩
      · exact ⟨ReqResult.err (ReqError.httpError r.status url),
          by simp +decide [doRequestGo, hf, ho, attemptLe, attemptLt, catchRetries]⟩
    | thrown te nm =>
      exact ⟨ReqResult.err (ReqError.jsError te nm),
        by simp +decide [doRequestGo, hf, attemptLe, attemptLt, catchRetries]⟩
  · intro raw fetches url fuel
    have hle := attemptLe_zero_maxRetries raw
    show 1 ≤ attemptsOf (doRequestGo fetches url (maxRetriesOf raw) (fuel + 1) 0 none)
    rw [doRequestGo]
    simp only [hle, Bool.true_eq_false, if_false]
    split <;> split_ifs <;>
      first
        | exact one_le_attemptsOf_add _
        | simp [attemptsOf]

/-- C4 amended witness: retries = -1 is clamped to a budget of 0 and one
attempt is made against a persistent 429 server. -/
theorem doRequest_retries_clamped_amended_witness :
    maxRetriesOf (JSNum.fin (-1)) = JSNum.fin 0
    ∧ (∃ r, doRequestModel none (some (JSNum.fin (-1))) persistent429 (str "u") 1
        = RunOut.done 1 r)
    ∧ 1 ≤ attemptsOf (doRequestModel none (some (JSNum.fin (-1))) persistent429 (str "u") 1) := by
  refine ⟨doRequest_retries_clamped_amended.1 (-1) (by norm_num),
    doRequest_retries_clamped_amended.2.2.2.1 (JSNum.fin (-1)) persistent429 (str "u")
      (doRequest_retries_clamped_amended.1 (-1) (by norm_num)),
    doRequest_retries_clamped_amended.2.2.2.2 (JSNum.fin (-1)) persistent429 (str "u") 0⟩
